import Mathlib

/-!
Shallow embedding of the proposal generation/application pipeline of the
kroget repository (src/kroget/core/proposal.py, src/kroget/core/sent_items.py)
together with proofs about it.

Conventions used throughout:
* Python `Optional[str]` becomes `Option String`; Python truthiness of such a
  value (`None` and `""` are falsy) is the boolean `strTruthy`.
* Network collaborators (`KrogerClient.products_search`, `get_product` composed
  with `extract_upcs`, `add_to_cart`, `update_staple`) live outside the
  specified core and are injected as pure functions; a fallible call is a
  function into `Except String _` whose error carries `str(exc)`.
* Effects are made observable by returning, next to the values the Python
  functions return, the trace of collaborator calls the loop body issues.
-/

namespace Kroget

/-- One non-chosen candidate, `ProposalAlternative` in proposal.py. -/
structure ProposalAlternative where
  upc : String
  description : Option String
  deriving Repr, DecidableEq

/-- One resolved line of a proposal, `ProposalItem` in proposal.py.
Pydantic defaults (`sources = []`, `alternatives = []`, …) are supplied
explicitly at every construction site of the embedding. -/
structure ProposalItem where
  name : String
  quantity : Int
  modality : String
  upc : Option String
  source : Option String
  sources : List String
  notes : Option String
  alternatives : List ProposalAlternative
  deriving Repr, DecidableEq

/-- The proposal document, `Proposal` in proposal.py. -/
structure Proposal where
  version : String
  created_at : String
  location_id : Option String
  items : List ProposalItem
  sources : List String
  deriving Repr, DecidableEq

/-- A user staple, `Staple` in storage.py. -/
structure Staple where
  name : String
  term : String
  quantity : Int
  preferred_upc : Option String
  modality : String
  deriving Repr, DecidableEq

/-- Python truthiness of an optional string: `None` and the empty string are
falsy, every other string is truthy. -/
def strTruthy (o : Option String) : Bool :=
  o.getD "" ≠ ""

/-! ## The applier (apply_proposal_items, proposal.py lines 179-212) -/

/-- One cart-add call as issued by `client.add_to_cart(token, product_id=item.upc,
quantity=item.quantity, modality=item.modality)`. -/
structure CartCall where
  upc : String
  quantity : Int
  modality : String
  deriving Repr, DecidableEq

/-- What one run of the apply loop produces: the three values
`apply_proposal_items` returns plus the trace of cart-add calls it issued. -/
structure ApplyOutcome where
  success : Nat
  failed : Nat
  errors : List String
  calls : List CartCall
  deriving Repr, DecidableEq

/-- The loop body of `apply_proposal_items`: iterate over the items in order;
an item with a falsy `upc` counts as failed with message
`"Missing UPC for <name>"`; otherwise `add_to_cart` is called and a raised
`KrogerAPIError` counts as failed with message `"Failed to add <name>: <exc>"`.
With `stopOnError` the loop breaks right after the first failure. -/
def applyLoop (cart : String → Int → String → Except String Unit)
    (stopOnError : Bool) : List ProposalItem → ApplyOutcome
  | [] => ⟨0, 0, [], []⟩
  | item :: rest =>
    if strTruthy item.upc then
      let u := item.upc.getD ""
      match cart u item.quantity item.modality with
      | Except.ok _ =>
        let r := applyLoop cart stopOnError rest
        ⟨r.success + 1, r.failed, r.errors, ⟨u, item.quantity, item.modality⟩ :: r.calls⟩
      | Except.error e =>
        if stopOnError then
          ⟨0, 1, ["Failed to add " ++ item.name ++ ": " ++ e], [⟨u, item.quantity, item.modality⟩]⟩
        else
          let r := applyLoop cart stopOnError rest
          ⟨r.success, r.failed + 1, ("Failed to add " ++ item.name ++ ": " ++ e) :: r.errors,
            ⟨u, item.quantity, item.modality⟩ :: r.calls⟩
    else
      if stopOnError then
        ⟨0, 1, ["Missing UPC for " ++ item.name], []⟩
      else
        let r := applyLoop cart stopOnError rest
        ⟨r.success, r.failed + 1, ("Missing UPC for " ++ item.name) :: r.errors, r.calls⟩

/-- `apply_proposal_items` (proposal.py): the value the Python function
returns, a 3-tuple `(success, failed, errors)`. -/
def apply_proposal_items (cart : String → Int → String → Except String Unit)
    (items : List ProposalItem) (stop_on_error : Bool) : Nat × Nat × List String :=
  let out := applyLoop cart stop_on_error items
  (out.success, out.failed, out.errors)

/-- Whether the apply loop treats this item as a failure: falsy `upc`, or a
cart-add call that raises. -/
def attemptFails (cart : String → Int → String → Except String Unit)
    (item : ProposalItem) : Bool :=
  if strTruthy item.upc then
    match cart (item.upc.getD "") item.quantity item.modality with
    | Except.ok _ => false
    | Except.error _ => true
  else
    true

/-- Modelled from the spec: `ApplyItemResult` (data model §3 and applier §4.3).
The class is referenced by tests/test_sent_items.py and by cli.py as
`kroget.core.proposal.ApplyItemResult`, but proposal.py under src does not
define it; this definition follows the spec wording: the attempted item, a
status of "success" or "failed", and an optional error message. -/
structure ApplyItemResult where
  item : ProposalItem
  status : String
  error : Option String
  deriving Repr, DecidableEq

/-- Modelled from the spec: the applier contract of §4.3, which returns a
4-tuple whose fourth component is the ordered list of per-item
`ApplyItemResult` records (missing from `apply_proposal_items` under src).
The loop shape mirrors `applyLoop`; per §4.3 a missing upc records
`ApplyItemResult{status:"failed", error:"missing upc"}`, a cart failure
records the failure message, a success records `error = null`. -/
def specApplyLoop (cart : String → Int → String → Except String Unit)
    (stopOnError : Bool) : List ProposalItem → Nat × Nat × List String × List ApplyItemResult
  | [] => (0, 0, [], [])
  | item :: rest =>
    if strTruthy item.upc then
      let u := item.upc.getD ""
      match cart u item.quantity item.modality with
      | Except.ok _ =>
        let r := specApplyLoop cart stopOnError rest
        (r.1 + 1, r.2.1, r.2.2.1, ⟨item, "success", none⟩ :: r.2.2.2)
      | Except.error e =>
        if stopOnError then
          (0, 1, ["Failed to add " ++ item.name ++ ": " ++ e],
            [⟨item, "failed", some ("Failed to add " ++ item.name ++ ": " ++ e)⟩])
        else
          let r := specApplyLoop cart stopOnError rest
          (r.1, r.2.1 + 1, ("Failed to add " ++ item.name ++ ": " ++ e) :: r.2.2.1,
            ⟨item, "failed", some ("Failed to add " ++ item.name ++ ": " ++ e)⟩ :: r.2.2.2)
    else
      if stopOnError then
        (0, 1, ["Missing UPC for " ++ item.name], [⟨item, "failed", some "missing upc"⟩])
      else
        let r := specApplyLoop cart stopOnError rest
        (r.1, r.2.1 + 1, ("Missing UPC for " ++ item.name) :: r.2.2.1,
          ⟨item, "failed", some "missing upc"⟩ :: r.2.2.2)

/-! ## Sent sessions (sent_items.py) -/

/-- Flattened audit record, `SentItem` in sent_items.py. -/
structure SentItem where
  name : String
  upc : String
  quantity : Int
  modality : String
  status : String
  error : Option String
  deriving Repr, DecidableEq

/-- One apply run's audit record, `SentSession` in sent_items.py. -/
structure SentSession where
  session_id : String
  started_at : String
  finished_at : String
  location_id : Option String
  sources : List String
  items : List SentItem
  deriving Repr, DecidableEq

/-- The history bound `MAX_SESSIONS` from sent_items.py. -/
def MAX_SESSIONS : Nat := 20

/-- `record_sent_session` (sent_items.py lines 124-135); the on-disk store is
modelled by its in-memory list state: `stored` is what `store.load()` returns,
and the returned list is both what `store.save` persists and the function's
return value — the Python body is load, `sessions.insert(0, session)`,
`sessions[:max_sessions]`, save, return. -/
def record_sent_session (session : SentSession) (stored : List SentSession)
    (max_sessions : Nat) : List SentSession :=
  (session :: stored).take max_sessions

/-- Sequentially record a batch of sessions against the same store, oldest
first in `sessions`, starting from store state `init`. -/
def recordAll (sessions : List SentSession) (init : List SentSession)
    (max_sessions : Nat) : List SentSession :=
  sessions.foldl (fun st s => record_sent_session s st max_sessions) init

/-- `session_from_apply_results` (sent_items.py lines 138-168). The generated
defaults (`_now_iso()` for times, `uuid4` for the id) are nondeterministic
effects; they enter as the `nowStarted`, `nowFinished` and `freshId`
parameters, used exactly when the corresponding optional argument is absent.
`upc = result.item.upc or ""` maps `none` and `some ""` to `""`. -/
def session_from_apply_results (results : List ApplyItemResult)
    (location_id : Option String) (sources : List String)
    (started_at finished_at session_id : Option String)
    (nowStarted nowFinished freshId : String) : SentSession :=
  { session_id := session_id.getD freshId
    started_at := started_at.getD nowStarted
    finished_at := finished_at.getD nowFinished
    location_id := location_id
    sources := sources
    items := results.map fun r =>
      ⟨r.item.name, r.item.upc.getD "", r.item.quantity, r.item.modality, r.status, r.error⟩ }

/-! ## The builder (generate_proposal, proposal.py lines 49-176) -/

/-- One ranked candidate product as `products_search` returns it.  The code
only ever observes `productId`, `description`, and — for each element of the
embedded `items` payload — whether it is a dict carrying a string `"upc"` and,
if so, that string; an element is therefore `Option String`.  A falsy `items`
(absent or the empty list) and a list with no usable upc are both handled by
the same truthiness checks the code performs. -/
structure Product where
  productId : String
  description : Option String
  items : Option (List (Option String))
  deriving Repr, DecidableEq

/-- The container `products_search` returns; the code reads `results.data`. -/
structure SearchResults where
  data : List Product
  deriving Repr, DecidableEq

/-- The collaborators `generate_proposal` drives.  `search term locId limit`
is `client.products_search`; `detail productId locId` is `client.get_product`
composed with `extract_upcs` (both live outside src/kroget/core, in the
kroger client and product_upc modules, and are specified only at this
boundary: a fetch either raises `KrogerAPIError` or yields the list of string
upcs extracted from the payload); `updateOk name upc listName` is the
`update_staple` store write, `false` standing for the `ValueError` the code
catches.  The access token is acquired once before the loop and is a constant
of every call, so it is not threaded here. -/
structure ResolverStubs where
  search : String → String → Nat → Except String SearchResults
  detail : String → String → Except String (List String)
  updateOk : String → String → Option String → Bool

/-- A resolver invocation, for stating which network calls a staple causes. -/
inductive ResolverCall where
  | searchCall (term : String)
  | detailCall (productId : String)
  deriving Repr, DecidableEq

/-- The upcs a candidate's embedded item list yields directly: the loop
`for item in product.items: if isinstance(item, dict) and
isinstance(item.get("upc"), str): upcs.append(item["upc"])`, guarded by the
truthiness of `product.items` (which filters the same elements). -/
def directUpcs (p : Product) : List String :=
  (p.items.getD []).filterMap id

/-- The direct-then-fallback upc rule applied to one candidate: embedded upcs
if any, otherwise a detail fetch whose failure is swallowed as `[]`. Used by
the code once per candidate in the alternatives loop and once more for the
top result. -/
def candidateUpcs (stubs : ResolverStubs) (locId : String) (p : Product) : List String :=
  let direct := directUpcs p
  if direct.isEmpty then
    match stubs.detail p.productId locId with
    | Except.ok upcs => upcs
    | Except.error _ => []
  else direct

/-- The detail calls `candidateUpcs` issues for one candidate. -/
def candidateCalls (p : Product) : List ResolverCall :=
  if (directUpcs p).isEmpty then [ResolverCall.detailCall p.productId] else []

/-- The tail of one loop iteration of `generate_proposal` (proposal.py lines
141-168): the pin decision and the construction of the emitted item, shared
by the preferred fast path and the search path.  `source` starts as
`"preferred" if chosen_upc else "search"` computed from the staple's
preferred upc (line 72, where `chosen_upc` still equals it), and is rewritten
to `"preferred"` exactly when a pin is accepted and the store update does not
raise. -/
def finishStep (stubs : ResolverStubs) (listName : Option String) (autoPin : Bool)
    (confirmPin : Option (Staple → String → Bool)) (s : Staple)
    (chosen : Option String) (alts : List ProposalAlternative) : ProposalItem × Bool :=
  let source0 := if strTruthy s.preferred_upc then "preferred" else "search"
  let pinResult :=
    if strTruthy chosen && !strTruthy s.preferred_upc then
      let shouldPin := autoPin ||
        (match confirmPin with
         | some f => f s (chosen.getD "")
         | none => false)
      if shouldPin then
        if stubs.updateOk s.name (chosen.getD "") listName then (true, "preferred")
        else (false, source0)
      else (false, source0)
    else (strTruthy s.preferred_upc, source0)
  (⟨s.name, s.quantity, s.modality, chosen, some pinResult.2, [], none, alts⟩, pinResult.1)

/-- One iteration of the staple loop of `generate_proposal` (proposal.py
lines 69-168): the emitted `ProposalItem`, the flag assigned to
`pinned[staple.name]`, and the resolver calls the iteration issues.  A truthy
preferred upc skips the search entirely; a raised search error emits the
error item and continues; otherwise the alternatives loop runs over the first
three results (a detail call per candidate without direct upcs), the chosen
upc is recomputed from the top result alone (issuing its fallback detail call
again, as the code does), and `finishStep` completes the iteration. -/
def proposeStep (stubs : ResolverStubs) (locId : String) (listName : Option String)
    (autoPin : Bool) (confirmPin : Option (Staple → String → Bool)) (s : Staple) :
    ProposalItem × Bool × List ResolverCall :=
  if strTruthy s.preferred_upc then
    let fin := finishStep stubs listName autoPin confirmPin s s.preferred_upc []
    (fin.1, fin.2, [])
  else
    match stubs.search s.term locId 5 with
    | Except.error e =>
      (⟨s.name, s.quantity, s.modality, none, some "search", [], some e, []⟩, false,
        [ResolverCall.searchCall s.term])
    | Except.ok res =>
      let top3 := res.data.take 3
      let alts := top3.filterMap fun p =>
        (candidateUpcs stubs locId p).head?.map fun u =>
          (⟨u, p.description⟩ : ProposalAlternative)
      let altCalls := top3.flatMap candidateCalls
      let chosen : Option String :=
        res.data.head?.bind fun first => (candidateUpcs stubs locId first).head?
      let chosenCalls :=
        match res.data.head? with
        | some first => candidateCalls first
        | none => []
      let fin := finishStep stubs listName autoPin confirmPin s chosen alts
      (fin.1, fin.2, ResolverCall.searchCall s.term :: (altCalls ++ chosenCalls))

/-- Python dict assignment `d[k] = v` on an insertion-ordered association
list: overwrite in place if the key exists, else append. -/
def dictSet : List (String × Bool) → String → Bool → List (String × Bool)
  | [], k, v => [(k, v)]
  | (k0, v0) :: rest, k, v =>
    if k0 = k then (k, v) :: rest else (k0, v0) :: dictSet rest k v

/-- Python dict lookup `d[k]` on the association list. -/
def dictGet : List (String × Bool) → String → Option Bool
  | [], _ => none
  | (k0, v0) :: rest, k => if k0 = k then some v0 else dictGet rest k

/-- `generate_proposal` (proposal.py): the returned `(proposal, pinned)` pair
plus the trace of resolver calls.  The loop runs the staples in order with
pure injected collaborators, so the items are the per-staple steps in input
order, the pinned dict is the fold of the per-staple assignments, and the
trace is their concatenation.  The token acquisition before the loop and the
`created_at = time.strftime(...)` timestamp are effects outside the item
logic; the timestamp enters as `now`. -/
def generate_proposal (stubs : ResolverStubs) (staples : List Staple)
    (locationId : String) (listName : Option String) (autoPin : Bool)
    (confirmPin : Option (Staple → String → Bool)) (now : String) :
    Proposal × List (String × Bool) × List ResolverCall :=
  let steps := staples.map (proposeStep stubs locationId listName autoPin confirmPin)
  (⟨"1", now, some locationId, steps.map (fun st => st.1), []⟩,
    steps.foldl (fun d st => dictSet d st.1.name st.2.1) [],
    steps.flatMap (fun st => st.2.2))

/-! ## Proposal file persistence (Proposal.save / Proposal.load)

`Proposal.save` writes `json.dumps(self.model_dump(), indent=2)` and
`Proposal.load` runs `json.loads` followed by `model_validate`.  The file is
modelled by the JSON value it holds: `json.dumps`/`json.loads` (stdlib, out
of the specified core) are an exact inverse pair on these values, so save is
the `model_dump` encoding and load is pydantic validation of that value.
`fromJson` follows pydantic on the shapes encoding can produce: a required
field must be present with the right type, an optional field falls back to
its declared default when absent. -/

/-- A JSON value as produced by `model_dump` for these models: null, string,
integer, array or object. -/
inductive Json where
  | null : Json
  | str : String → Json
  | num : Int → Json
  | arr : List Json → Json
  | obj : List (String × Json) → Json

/-- Encoding of an optional string field. -/
def optStrJson : Option String → Json
  | none => Json.null
  | some s => Json.str s

/-- `model_dump` of a `ProposalAlternative`. -/
def altToJson (a : ProposalAlternative) : Json :=
  Json.obj [("upc", Json.str a.upc), ("description", optStrJson a.description)]

/-- `model_dump` of a `ProposalItem`. -/
def itemToJson (it : ProposalItem) : Json :=
  Json.obj
    [("name", Json.str it.name), ("quantity", Json.num it.quantity),
     ("modality", Json.str it.modality), ("upc", optStrJson it.upc),
     ("source", optStrJson it.source),
     ("sources", Json.arr (it.sources.map Json.str)),
     ("notes", optStrJson it.notes),
     ("alternatives", Json.arr (it.alternatives.map altToJson))]

/-- `Proposal.save` (proposal.py lines 45-46) at the JSON-value boundary:
`model_dump` of the proposal. -/
def Proposal.save (p : Proposal) : Json :=
  Json.obj
    [("version", Json.str p.version), ("created_at", Json.str p.created_at),
     ("location_id", optStrJson p.location_id),
     ("items", Json.arr (p.items.map itemToJson)),
     ("sources", Json.arr (p.sources.map Json.str))]

/-- Field lookup in a JSON object payload (first occurrence of the key). -/
def getField : List (String × Json) → String → Option Json
  | [], _ => none
  | (k0, j) :: rest, k => if k0 = k then some j else getField rest k

/-- Validation of a required string field value. -/
def jsonAsStr : Json → Option String
  | Json.str s => some s
  | _ => none

/-- Validation of a required integer field value. -/
def jsonAsInt : Json → Option Int
  | Json.num n => some n
  | _ => none

/-- Validation of a `str | None` field value. -/
def jsonAsOptStr : Json → Option (Option String)
  | Json.null => some none
  | Json.str s => some (some s)
  | _ => none

/-- Validation of an optional field: absent means the declared default. -/
def fieldOrDefault {α : Type} (fields : List (String × Json)) (k : String)
    (dflt : α) (f : Json → Option α) : Option α :=
  match getField fields k with
  | none => some dflt
  | some j => f j

/-- Elementwise validation of a JSON array payload. -/
def parseList {α : Type} (f : Json → Option α) : List Json → Option (List α)
  | [] => some []
  | j :: js =>
    match f j, parseList f js with
    | some a, some as => some (a :: as)
    | _, _ => none

/-- Validation of a `list[str]` field value. -/
def jsonAsStrList : Json → Option (List String)
  | Json.arr xs => parseList jsonAsStr xs
  | _ => none

/-- `model_validate` of a `ProposalAlternative` payload. -/
def altFromJson : Json → Option ProposalAlternative
  | Json.obj fs =>
    match getField fs "upc" with
    | some j =>
      match jsonAsStr j, fieldOrDefault fs "description" none jsonAsOptStr with
      | some upc, some desc => some ⟨upc, desc⟩
      | _, _ => none
    | none => none
  | _ => none

/-- `model_validate` of a `ProposalItem` payload. -/
def itemFromJson : Json → Option ProposalItem
  | Json.obj fs =>
    match getField fs "name", getField fs "quantity", getField fs "modality" with
    | some jn, some jq, some jm =>
      match jsonAsStr jn, jsonAsInt jq, jsonAsStr jm,
          fieldOrDefault fs "upc" none jsonAsOptStr,
          fieldOrDefault fs "source" none jsonAsOptStr,
          fieldOrDefault fs "sources" [] jsonAsStrList,
          fieldOrDefault fs "notes" none jsonAsOptStr,
          fieldOrDefault fs "alternatives" []
            (fun j => match j with
              | Json.arr xs => parseList altFromJson xs
              | _ => none) with
      | some name, some qty, some modality, some upc, some src, some srcs,
          some notes, some alts =>
        some ⟨name, qty, modality, upc, src, srcs, notes, alts⟩
      | _, _, _, _, _, _, _, _ => none
    | _, _, _ => none
  | _ => none

/-- `Proposal.load` (proposal.py lines 40-43) at the JSON-value boundary:
pydantic validation of the parsed payload; `none` is the raised
`ValidationError`. -/
def Proposal.load : Json → Option Proposal
  | Json.obj fs =>
    match getField fs "version", getField fs "created_at" with
    | some jv, some jc =>
      match jsonAsStr jv, jsonAsStr jc,
          fieldOrDefault fs "location_id" none jsonAsOptStr,
          fieldOrDefault fs "items" []
            (fun j => match j with
              | Json.arr xs => parseList itemFromJson xs
              | _ => none),
          fieldOrDefault fs "sources" [] jsonAsStrList with
      | some v, some c, some loc, some its, some srcs =>
        some ⟨v, c, loc, its, srcs⟩
      | _, _, _, _, _ => none
    | _, _ => none
  | _ => none

/-! ## Round-trip lemmas for the proposal file format -/

theorem jsonAsOptStr_optStrJson (o : Option String) :
    jsonAsOptStr (optStrJson o) = some o := by
  cases o <;> rfl

theorem parseList_map {α : Type} (f : Json → Option α) (g : α → Json) (l : List α)
    (h : ∀ a ∈ l, f (g a) = some a) : parseList f (l.map g) = some l := by
  induction l with
  | nil => rfl
  | cons a l ih =>
    simp only [List.map_cons, parseList, h a (List.mem_cons_self a l),
      ih (fun b hb => h b (List.mem_cons_of_mem a hb))]

theorem parseList_map_str (l : List String) :
    parseList jsonAsStr (l.map Json.str) = some l :=
  parseList_map _ _ _ (fun _ _ => rfl)

theorem altFromJson_altToJson (a : ProposalAlternative) :
    altFromJson (altToJson a) = some a := by
  cases a with
  | mk upc desc => cases desc <;> rfl

theorem parseList_map_alt (l : List ProposalAlternative) :
    parseList altFromJson (l.map altToJson) = some l :=
  parseList_map _ _ _ (fun a _ => altFromJson_altToJson a)

theorem itemFromJson_itemToJson (it : ProposalItem) :
    itemFromJson (itemToJson it) = some it := by
  cases it with
  | mk name qty modality upc src srcs notes alts =>
    simp only [itemToJson, itemFromJson, getField, fieldOrDefault, jsonAsStr,
      jsonAsInt, jsonAsStrList, jsonAsOptStr_optStrJson, parseList_map_str,
      parseList_map_alt, if_true, if_pos, if_neg, String.reduceEq,
      reduceCtorEq, ite_true, ite_false]

theorem parseList_map_item (l : List ProposalItem) :
    parseList itemFromJson (l.map itemToJson) = some l :=
  parseList_map _ _ _ (fun it _ => itemFromJson_itemToJson it)

/-- C9: for every Proposal, saving it to a file with Proposal.save and loading
it back with Proposal.load yields a Proposal field-for-field equal to the
original, including every nested ProposalItem and ProposalAlternative. -/
theorem proposal_save_load_roundtrip (p : Proposal) :
    Proposal.load (Proposal.save p) = some p := by
  cases p with
  | mk version created_at location_id items sources =>
    simp only [Proposal.save, Proposal.load, getField, fieldOrDefault, jsonAsStr,
      jsonAsOptStr_optStrJson, jsonAsStrList, parseList_map_str, parseList_map_item,
      String.reduceEq, reduceCtorEq, ite_true, ite_false]

/-! ## History-bound lemmas (sent_items.py) -/

theorem take_append_take {α : Type} (b : List α) :
    ∀ (a : List α) (k m : Nat), k ≤ m →
      (a ++ b.take m).take k = (a ++ b).take k := by
  intro a
  induction a with
  | nil =>
    intro k m hk
    simp only [List.nil_append, List.take_take, Nat.min_eq_left hk]
  | cons x a ih =>
    intro k m hk
    cases k with
    | zero => rfl
    | succ k =>
      simp only [List.cons_append, List.take_succ_cons, ih k m (Nat.le_of_succ_le hk)]

theorem recordAll_eq_take (m : Nat) :
    ∀ (l st : List SentSession), st.length ≤ m →
      recordAll l st m = (l.reverse ++ st).take m := by
  intro l
  induction l with
  | nil =>
    intro st hst
    simp only [recordAll, List.foldl_nil, List.reverse_nil, List.nil_append,
      List.take_of_length_le hst]
  | cons s l ih =>
    intro st hst
    have step : recordAll (s :: l) st m = recordAll l ((s :: st).take m) m := rfl
    rw [step, ih ((s :: st).take m) (by simp)]
    rw [take_append_take (s :: st) l.reverse m m (Nat.le_refl m)]
    simp [List.reverse_cons, List.append_assoc]

/-- A session carrying only an identifier, for concrete history runs. -/
def blankSession (sid : String) : SentSession :=
  ⟨sid, "", "", none, [], []⟩

/-- Twenty-five distinct sessions, recorded oldest first. -/
def sampleSessions : List SentSession :=
  (List.range 25).map (fun i => blankSession (toString i))

/-- C7: record_sent_session returns, and persists as the new history, the new
session prepended to the previously stored list and then truncated to the
configured maximum (20); hence recording 25 sessions sequentially with max=20
leaves exactly the 20 most recent sessions, ordered most-recent-first, with
the oldest 5 evicted. -/
theorem record_history_bound (l : List SentSession) :
    (∀ (session : SentSession) (stored : List SentSession),
      record_sent_session session stored MAX_SESSIONS =
        (session :: stored).take MAX_SESSIONS) ∧
    recordAll l [] MAX_SESSIONS = l.reverse.take MAX_SESSIONS ∧
    (l.length = 25 →
      recordAll l [] MAX_SESSIONS = (l.drop 5).reverse ∧
      (recordAll l [] MAX_SESSIONS).length = 20) := by
  have hbase : recordAll l [] MAX_SESSIONS = l.reverse.take MAX_SESSIONS := by
    rw [recordAll_eq_take MAX_SESSIONS l [] (by simp)]
    simp
  refine ⟨fun _ _ => rfl, hbase, fun h25 => ?_⟩
  have hsplit : l.reverse = (l.drop 5).reverse ++ (l.take 5).reverse := by
    rw [← List.reverse_append, List.take_append_drop]
  have hlen : (l.drop 5).reverse.length = MAX_SESSIONS := by
    simp [h25, MAX_SESSIONS]
  have heq : recordAll l [] MAX_SESSIONS = (l.drop 5).reverse := by
    rw [hbase, hsplit, ← hlen, List.take_left]
  exact ⟨heq, by rw [heq, hlen]; rfl⟩

/-- Witness for C7: the 25 concrete sessions leave exactly the 20 most
recent, most-recent-first. -/
theorem record_history_bound_witness :
    recordAll sampleSessions [] MAX_SESSIONS = (sampleSessions.drop 5).reverse ∧
    (recordAll sampleSessions [] MAX_SESSIONS).length = 20 :=
  (record_history_bound sampleSessions).2.2 (by rfl)

/-! ## Apply-loop lemmas -/

theorem applyLoop_spec_components (cart : String → Int → String → Except String Unit)
    (stop : Bool) (items : List ProposalItem) :
    (applyLoop cart stop items).success = (specApplyLoop cart stop items).1 ∧
    (applyLoop cart stop items).failed = (specApplyLoop cart stop items).2.1 ∧
    (applyLoop cart stop items).errors = (specApplyLoop cart stop items).2.2.1 := by
  induction items with
  | nil => exact ⟨rfl, rfl, rfl⟩
  | cons item rest ih =>
    obtain ⟨ihs, ihf, ihe⟩ := ih
    cases h : strTruthy item.upc
    · cases stop <;> simp [applyLoop, specApplyLoop, h, ihs, ihf, ihe]
    · cases hc : cart (item.upc.getD "") item.quantity item.modality with
      | error e => cases stop <;> simp [applyLoop, specApplyLoop, h, hc, ihs, ihf, ihe]
      | ok _ => simp [applyLoop, specApplyLoop, h, hc, ihs, ihf, ihe]

theorem specApplyLoop_results_length (cart : String → Int → String → Except String Unit)
    (stop : Bool) (items : List ProposalItem) :
    (specApplyLoop cart stop items).2.2.2.length =
      (specApplyLoop cart stop items).1 + (specApplyLoop cart stop items).2.1 := by
  induction items with
  | nil => rfl
  | cons item rest ih =>
    cases h : strTruthy item.upc
    · cases stop
      all_goals simp [specApplyLoop, h, ih]
      all_goals omega
    · cases hc : cart (item.upc.getD "") item.quantity item.modality with
      | error e =>
        cases stop
        all_goals simp [specApplyLoop, h, hc, ih]
        all_goals omega
      | ok _ =>
        simp [specApplyLoop, h, hc, ih]
        omega

theorem applyLoop_counts (cart : String → Int → String → Except String Unit)
    (stop : Bool) (items : List ProposalItem) :
    (applyLoop cart stop items).success + (applyLoop cart stop items).failed ≤
      items.length ∧
    (stop = false →
      (applyLoop cart stop items).success + (applyLoop cart stop items).failed =
        items.length) := by
  induction items with
  | nil => exact ⟨Nat.le_refl 0, fun _ => rfl⟩
  | cons item rest ih =>
    obtain ⟨ihle, iheq⟩ := ih
    constructor
    · cases h : strTruthy item.upc
      · cases stop
        all_goals simp only [applyLoop, h, Bool.false_eq_true, if_false, if_true,
          List.length_cons]
        all_goals omega
      · cases hc : cart (item.upc.getD "") item.quantity item.modality with
        | error e =>
          cases stop
          all_goals simp only [applyLoop, h, hc, Bool.false_eq_true, if_false,
            if_true, List.length_cons]
          all_goals omega
        | ok _ =>
          simp only [applyLoop, h, hc, if_true, List.length_cons]
          omega
    · intro hstop
      subst hstop
      have heq := iheq rfl
      cases h : strTruthy item.upc
      · simp only [applyLoop, h, Bool.false_eq_true, if_false, List.length_cons]
        omega
      · cases hc : cart (item.upc.getD "") item.quantity item.modality with
        | error e =>
          simp only [applyLoop, h, hc, Bool.false_eq_true, if_false, if_true,
            List.length_cons]
          omega
        | ok _ =>
          simp only [applyLoop, h, hc, if_true, List.length_cons]
          omega

theorem applyLoop_all_ok (cart : String → Int → String → Except String Unit)
    (stop : Bool) (items : List ProposalItem)
    (h : ∀ i ∈ items, attemptFails cart i = false) :
    (applyLoop cart stop items).success = items.length ∧
    (applyLoop cart stop items).failed = 0 := by
  induction items with
  | nil => exact ⟨rfl, rfl⟩
  | cons item rest ih =>
    have hi := h item (List.mem_cons_self item rest)
    have hrest := ih (fun i hmem => h i (List.mem_cons_of_mem item hmem))
    cases ht : strTruthy item.upc
    · exfalso
      simp [attemptFails, ht] at hi
    · cases hc : cart (item.upc.getD "") item.quantity item.modality with
      | error e =>
        exfalso
        simp [attemptFails, ht, hc] at hi
      | ok _ => simp [applyLoop, ht, hc, hrest.1, hrest.2]

theorem applyLoop_stop_halts (cart : String → Int → String → Except String Unit) :
    ∀ (pre : List ProposalItem) (x : ProposalItem) (post : List ProposalItem),
      (∀ i ∈ pre, attemptFails cart i = false) → attemptFails cart x = true →
      applyLoop cart true (pre ++ x :: post) = applyLoop cart true (pre ++ [x]) := by
  intro pre
  induction pre with
  | nil =>
    intro x post _ hx
    cases h : strTruthy x.upc
    · simp [applyLoop, h]
    · cases hc : cart (x.upc.getD "") x.quantity x.modality with
      | error e => simp [applyLoop, h, hc]
      | ok _ =>
        exfalso
        rw [attemptFails, h, hc] at hx
        simp at hx
  | cons p pre ih =>
    intro x post hpre hx
    have hp : attemptFails cart p = false := hpre p (List.mem_cons_self p pre)
    have hpre2 : ∀ i ∈ pre, attemptFails cart i = false :=
      fun i hi => hpre i (List.mem_cons_of_mem p hi)
    cases h : strTruthy p.upc
    · exfalso
      rw [attemptFails, h] at hp
      simp at hp
    · cases hc : cart (p.upc.getD "") p.quantity p.modality with
      | error e =>
        exfalso
        rw [attemptFails, h, hc] at hp
        simp at hp
      | ok _ =>
        simp only [List.cons_append, applyLoop, h, hc, if_true, List.append_eq]
        rw [ih x post hpre2 hx]

theorem applyLoop_nostop (cart : String → Int → String → Except String Unit)
    (items : List ProposalItem) :
    (applyLoop cart false items).calls =
      (items.filter fun i => strTruthy i.upc).map
        (fun i => (⟨i.upc.getD "", i.quantity, i.modality⟩ : CartCall)) := by
  induction items with
  | nil => rfl
  | cons item rest ih =>
    cases h : strTruthy item.upc
    · simp [applyLoop, List.filter_cons, h, ih]
    · cases hc : cart (item.upc.getD "") item.quantity item.modality with
      | error e => simp [applyLoop, List.filter_cons, h, hc, ih]
      | ok _ => simp [applyLoop, List.filter_cons, h, hc, ih]

/-- A cart collaborator that accepts every add. -/
def okCart : String → Int → String → Except String Unit :=
  fun _ _ _ => Except.ok ()

/-- An item whose resolution failed: no upc. -/
def missingUpcItem : ProposalItem :=
  ⟨"milk", 1, "PICKUP", none, some "search", [], none, []⟩

/-- A resolved item carrying a upc. -/
def resolvedItem : ProposalItem :=
  ⟨"eggs", 2, "DELIVERY", some "000222", some "search", [], none, []⟩

/-- C2: the code's `apply_proposal_items` computes exactly the first three
components of the spec's 4-tuple contract — `(successCount, failedCount,
errorMessages)` agree with the spec-modelled applier for every cart
collaborator, item list and stopOnError flag, and the spec-modelled `results`
holds one ApplyItemResult per attempted item — but the code returns only the
3-tuple and defines no ApplyItemResult, so the fourth component the
Sent-Session Recorder consumes is missing. -/
theorem apply_contract_sans_results (cart : String → Int → String → Except String Unit)
    (items : List ProposalItem) (stop : Bool) :
    apply_proposal_items cart items stop =
      ((specApplyLoop cart stop items).1, (specApplyLoop cart stop items).2.1,
        (specApplyLoop cart stop items).2.2.1) ∧
    (specApplyLoop cart stop items).2.2.2.length =
      (specApplyLoop cart stop items).1 + (specApplyLoop cart stop items).2.1 := by
  obtain ⟨hs, hf, he⟩ := applyLoop_spec_components cart stop items
  exact ⟨by simp only [apply_proposal_items, hs, hf, he],
    specApplyLoop_results_length cart stop items⟩

/-- C3 counterexample: with stopOnError = true and a first item lacking a
upc, the run halts after one item, so successCount + failedCount = 1 while
len(items) = 2 — the claim's unconditional tally equation is false. -/
theorem apply_tally_counterexample :
    ¬ ((apply_proposal_items okCart [missingUpcItem, resolvedItem] true).1 +
        (apply_proposal_items okCart [missingUpcItem, resolvedItem] true).2.1 =
        ([missingUpcItem, resolvedItem] : List ProposalItem).length) := by
  decide

/-- C3 (amended): for every apply run, successCount + failedCount equals the
number of attempted items: it is at most len(items) in general, and equals
len(items) whenever stopOnError is false, or whenever no item fails (so only
an early stopOnError halt leaves it short); the spec-modelled per-item
results list likewise has one entry per attempted item, hence length
successCount + failedCount ≤ len(items). -/
theorem apply_tally (cart : String → Int → String → Except String Unit)
    (items : List ProposalItem) (stop : Bool) :
    (apply_proposal_items cart items stop).1 +
      (apply_proposal_items cart items stop).2.1 ≤ items.length ∧
    (stop = false →
      (apply_proposal_items cart items stop).1 +
        (apply_proposal_items cart items stop).2.1 = items.length) ∧
    (specApplyLoop cart stop items).2.2.2.length =
      (apply_proposal_items cart items stop).1 +
        (apply_proposal_items cart items stop).2.1 ∧
    ((∀ i ∈ items, attemptFails cart i = false) →
      (apply_proposal_items cart items stop).1 = items.length ∧
      (apply_proposal_items cart items stop).2.1 = 0) := by
  obtain ⟨hle, heq⟩ := applyLoop_counts cart stop items
  obtain ⟨hs, hf, _⟩ := applyLoop_spec_components cart stop items
  refine ⟨hle, heq, ?_, fun hok => applyLoop_all_ok cart stop items hok⟩
  rw [specApplyLoop_results_length cart stop items]
  simp only [apply_proposal_items, hs, hf]

/-- Witness for C3 (amended): the two concrete items applied without
stopOnError give successCount + failedCount = len(items) = 2. -/
theorem apply_tally_witness :
    (apply_proposal_items okCart [missingUpcItem, resolvedItem] false).1 +
      (apply_proposal_items okCart [missingUpcItem, resolvedItem] false).2.1 =
      ([missingUpcItem, resolvedItem] : List ProposalItem).length :=
  (apply_tally okCart [missingUpcItem, resolvedItem] false).2.1 rfl

/-- C8: with stopOnError = true the loop halts at the first failed item
(missing upc or cart-add failure): the whole outcome — counts, error
messages, and the trace of cart-add calls — equals that of running only up
to and including the first failing item, so nothing after it is attempted;
with stopOnError = false every item is processed: a cart-add call is issued
for exactly the upc-bearing items in order, and every item is counted. -/
theorem stop_on_error_halts :
    (∀ (cart : String → Int → String → Except String Unit)
      (pre : List ProposalItem) (x : ProposalItem) (post : List ProposalItem),
      (∀ i ∈ pre, attemptFails cart i = false) → attemptFails cart x = true →
      applyLoop cart true (pre ++ x :: post) = applyLoop cart true (pre ++ [x])) ∧
    (∀ (cart : String → Int → String → Except String Unit)
      (items : List ProposalItem),
      (applyLoop cart false items).calls =
        (items.filter fun i => strTruthy i.upc).map
          (fun i => (⟨i.upc.getD "", i.quantity, i.modality⟩ : CartCall)) ∧
      (applyLoop cart false items).success + (applyLoop cart false items).failed =
        items.length) :=
  ⟨applyLoop_stop_halts,
    fun cart items => ⟨applyLoop_nostop cart items, (applyLoop_counts cart false items).2 rfl⟩⟩

/-- Witness for C8: one succeeding item, then a failing one, then one more;
with stopOnError the outcome ignores the trailing item. -/
theorem stop_on_error_halts_witness :
    applyLoop okCart true ([resolvedItem] ++ missingUpcItem :: [resolvedItem]) =
      applyLoop okCart true ([resolvedItem] ++ [missingUpcItem]) :=
  stop_on_error_halts.1 okCart [resolvedItem] missingUpcItem [resolvedItem]
    (by decide) (by decide)

/-! ## Dict lemmas for the pinned map -/

theorem dictGet_dictSet_self (d : List (String × Bool)) (k : String) (v : Bool) :
    dictGet (dictSet d k v) k = some v := by
  induction d with
  | nil => simp [dictSet, dictGet]
  | cons p rest ih =>
    by_cases h : p.1 = k
    · simp [dictSet, dictGet, h]
    · simp [dictSet, dictGet, h, ih]

theorem dictGet_dictSet_ne (d : List (String × Bool)) (k0 k : String) (v : Bool)
    (h : k0 ≠ k) : dictGet (dictSet d k0 v) k = dictGet d k := by
  induction d with
  | nil => simp [dictSet, dictGet, h]
  | cons p rest ih =>
    by_cases hp : p.1 = k0
    · simp [dictSet, dictGet, hp, h]
    · by_cases hk : p.1 = k
      · simp [dictSet, dictGet, hp, hk, Ne.symm h]
      · simp [dictSet, dictGet, hp, hk, ih]

theorem dictGet_foldl_not_mem (l : List (String × Bool)) (k : String)
    (h : k ∉ l.map Prod.fst) (d : List (String × Bool)) :
    dictGet (l.foldl (fun acc p => dictSet acc p.1 p.2) d) k = dictGet d k := by
  induction l generalizing d with
  | nil => rfl
  | cons p rest ih =>
    simp only [List.map_cons, List.mem_cons] at h
    push_neg at h
    rw [List.foldl_cons, ih (fun hm => h.2 hm) _,
      dictGet_dictSet_ne d p.1 k p.2 (fun he => h.1 he.symm)]

theorem dictGet_foldl_split (l1 l2 : List (String × Bool)) (k : String) (v : Bool)
    (hnot : k ∉ l2.map Prod.fst) (d : List (String × Bool)) :
    dictGet ((l1 ++ (k, v) :: l2).foldl (fun acc p => dictSet acc p.1 p.2) d) k =
      some v := by
  rw [List.foldl_append, List.foldl_cons, dictGet_foldl_not_mem l2 k hnot,
    dictGet_dictSet_self]

/-! ## Per-staple step lemmas -/

theorem strTruthy_some {u : String} (hu : u ≠ "") : strTruthy (some u) = true := by
  simp [strTruthy, hu]

theorem proposeStep_name (stubs : ResolverStubs) (locId : String)
    (listName : Option String) (autoPin : Bool)
    (confirmPin : Option (Staple → String → Bool)) (s : Staple) :
    (proposeStep stubs locId listName autoPin confirmPin s).1.name = s.name := by
  unfold proposeStep
  cases h : strTruthy s.preferred_upc
  · simp only [h, Bool.false_eq_true, if_false]
    cases hs : stubs.search s.term locId 5 with
    | error e => rfl
    | ok res => rfl
  · rfl

theorem proposeStep_sources (stubs : ResolverStubs) (locId : String)
    (listName : Option String) (autoPin : Bool)
    (confirmPin : Option (Staple → String → Bool)) (s : Staple) :
    (proposeStep stubs locId listName autoPin confirmPin s).1.sources = [] := by
  unfold proposeStep
  cases h : strTruthy s.preferred_upc
  · simp only [h, Bool.false_eq_true, if_false]
    cases hs : stubs.search s.term locId 5 with
    | error e => rfl
    | ok res => rfl
  · rfl

theorem proposeStep_preferred (stubs : ResolverStubs) (locId : String)
    (listName : Option String) (autoPin : Bool)
    (confirmPin : Option (Staple → String → Bool)) (s : Staple) (u : String)
    (hpref : s.preferred_upc = some u) (hu : u ≠ "") :
    proposeStep stubs locId listName autoPin confirmPin s =
      (⟨s.name, s.quantity, s.modality, some u, some "preferred", [], none, []⟩,
        true, []) := by
  have ht : strTruthy s.preferred_upc = true := by rw [hpref]; exact strTruthy_some hu
  unfold proposeStep finishStep
  rw [ht]
  simp only [if_true, hpref, ht, Bool.not_true, Bool.and_false, Bool.false_eq_true,
    if_false, strTruthy_some hu]

/-! ## Decomposition of generate_proposal -/

theorem generate_items (stubs : ResolverStubs) (staples : List Staple)
    (locId : String) (listName : Option String) (autoPin : Bool)
    (confirmPin : Option (Staple → String → Bool)) (now : String) :
    (generate_proposal stubs staples locId listName autoPin confirmPin now).1.items =
      staples.map (fun s => (proposeStep stubs locId listName autoPin confirmPin s).1) := by
  simp [generate_proposal]

theorem generate_trace (stubs : ResolverStubs) (staples : List Staple)
    (locId : String) (listName : Option String) (autoPin : Bool)
    (confirmPin : Option (Staple → String → Bool)) (now : String) :
    (generate_proposal stubs staples locId listName autoPin confirmPin now).2.2 =
      staples.flatMap
        (fun s => (proposeStep stubs locId listName autoPin confirmPin s).2.2) := by
  show ((staples.map (proposeStep stubs locId listName autoPin confirmPin)).flatMap
    (fun st => st.2.2)) = _
  induction staples with
  | nil => rfl
  | cons s rest ih => simp only [List.map_cons, List.flatMap_cons, ih]

theorem generate_pinned (stubs : ResolverStubs) (staples : List Staple)
    (locId : String) (listName : Option String) (autoPin : Bool)
    (confirmPin : Option (Staple → String → Bool)) (now : String) :
    (generate_proposal stubs staples locId listName autoPin confirmPin now).2.1 =
      (staples.map (fun s =>
        (s.name, (proposeStep stubs locId listName autoPin confirmPin s).2.1))).foldl
        (fun acc p => dictSet acc p.1 p.2) [] := by
  show ((staples.map (proposeStep stubs locId listName autoPin confirmPin)).foldl
    (fun d st => dictSet d st.1.name st.2.1) []) = _
  rw [List.foldl_map, List.foldl_map]
  have hfun : (fun (d : List (String × Bool)) (s : Staple) =>
      dictSet d (proposeStep stubs locId listName autoPin confirmPin s).1.name
        (proposeStep stubs locId listName autoPin confirmPin s).2.1) =
      (fun (d : List (String × Bool)) (s : Staple) =>
        dictSet d s.name (proposeStep stubs locId listName autoPin confirmPin s).2.1) := by
    funext d s
    rw [proposeStep_name]
  rw [hfun]

theorem generate_pinned_lookup
    (stubs : ResolverStubs) (staples : List Staple) (locId : String)
    (listName : Option String) (autoPin : Bool)
    (confirmPin : Option (Staple → String → Bool)) (now : String)
    (i : Nat) (s : Staple) (hs : staples[i]? = some s)
    (hnd : (staples.map (fun t => t.name)).Nodup) :
    dictGet
        (generate_proposal stubs staples locId listName autoPin confirmPin now).2.1
        s.name =
      some (proposeStep stubs locId listName autoPin confirmPin s).2.1 := by
  rw [generate_pinned]
  have hi : i < staples.length := by
    by_contra hlt
    push_neg at hlt
    rw [List.getElem?_eq_none hlt] at hs
    cases hs
  have hgi : staples[i] = s := by
    have h2 := List.getElem?_eq_getElem hi
    rw [hs] at h2
    exact (Option.some_inj.mp h2).symm
  have hsplit : staples = staples.take i ++ s :: staples.drop (i + 1) := by
    conv_lhs => rw [← List.take_append_drop i staples]
    rw [List.drop_eq_getElem_cons hi, hgi]
  have hnot : s.name ∉ (staples.drop (i + 1)).map (fun t => t.name) := by
    rw [hsplit, List.map_append, List.map_cons] at hnd
    exact (List.nodup_cons.mp hnd.of_append_right).1
  rw [hsplit, List.map_append, List.map_cons]
  refine dictGet_foldl_split _ _ _ _ ?_ []
  rw [List.map_map]
  exact hnot

theorem proposeStep_search_error (stubs : ResolverStubs) (locId : String)
    (listName : Option String) (autoPin : Bool)
    (confirmPin : Option (Staple → String → Bool)) (s : Staple) (e : String)
    (hpref : strTruthy s.preferred_upc = false)
    (hsearch : stubs.search s.term locId 5 = Except.error e) :
    proposeStep stubs locId listName autoPin confirmPin s =
      (⟨s.name, s.quantity, s.modality, none, some "search", [], some e, []⟩, false,
        [ResolverCall.searchCall s.term]) := by
  unfold proposeStep
  rw [hpref]
  simp only [Bool.false_eq_true, if_false, hsearch]

/-- C1: for every staple whose preferredUpc is set, build (generate_proposal)
never invokes the resolver for that staple — its loop iteration issues no
search and no detail-fetch call, and the build's whole resolver trace is the
concatenation of the per-staple traces — and the emitted ProposalItem has upc
equal to the staple's preferredUpc, source "preferred" and empty
alternatives, and the returned pinned map has pinned[name] = true. -/
theorem preferred_upc_fast_path
    (stubs : ResolverStubs) (staples : List Staple) (locId : String)
    (listName : Option String) (autoPin : Bool)
    (confirmPin : Option (Staple → String → Bool)) (now : String)
    (i : Nat) (s : Staple) (u : String)
    (hs : staples[i]? = some s) (hpref : s.preferred_upc = some u) (hu : u ≠ "")
    (hnd : (staples.map (fun t => t.name)).Nodup) :
    (generate_proposal stubs staples locId listName autoPin confirmPin
        now).1.items[i]? =
      some ⟨s.name, s.quantity, s.modality, some u, some "preferred", [], none, []⟩ ∧
    dictGet
        (generate_proposal stubs staples locId listName autoPin confirmPin now).2.1
        s.name = some true ∧
    (proposeStep stubs locId listName autoPin confirmPin s).2.2 = [] ∧
    (generate_proposal stubs staples locId listName autoPin confirmPin now).2.2 =
      staples.flatMap
        (fun t => (proposeStep stubs locId listName autoPin confirmPin t).2.2) := by
  have hstep := proposeStep_preferred stubs locId listName autoPin confirmPin s u hpref hu
  refine ⟨?_, ?_, ?_,
    generate_trace stubs staples locId listName autoPin confirmPin now⟩
  · rw [generate_items, List.getElem?_map, hs, Option.map_some', hstep]
  · rw [generate_pinned_lookup stubs staples locId listName autoPin confirmPin now
      i s hs hnd, hstep]
  · rw [hstep]

/-- A staple already carrying a pinned upc. -/
def pinnedStaple : Staple := ⟨"bread", "bread", 1, some "000111", "PICKUP"⟩

/-- Collaborators that fail if ever consulted, to run the preferred fast
path against. -/
def prefStubs : ResolverStubs :=
  ⟨fun _ _ _ => Except.error "unexpected search",
    fun _ _ => Except.error "unexpected detail fetch",
    fun _ _ _ => true⟩

/-- Witness for C1: the pinned staple flows through build untouched by the
resolver. -/
theorem preferred_upc_fast_path_witness :
    (generate_proposal prefStubs [pinnedStaple] "01400441" none false none
        "2024-01-01T00:00:00Z").1.items[0]? =
      some ⟨"bread", 1, "PICKUP", some "000111", some "preferred", [], none, []⟩ ∧
    dictGet
        (generate_proposal prefStubs [pinnedStaple] "01400441" none false none
          "2024-01-01T00:00:00Z").2.1 "bread" = some true ∧
    (proposeStep prefStubs "01400441" none false none pinnedStaple).2.2 = [] ∧
    (generate_proposal prefStubs [pinnedStaple] "01400441" none false none
        "2024-01-01T00:00:00Z").2.2 =
      [pinnedStaple].flatMap
        (fun t => (proposeStep prefStubs "01400441" none false none t).2.2) :=
  preferred_upc_fast_path prefStubs [pinnedStaple] "01400441" none false none
    "2024-01-01T00:00:00Z" 0 pinnedStaple "000111" rfl rfl (by decide) (by decide)

/-- C6: when the resolver's search call fails for one staple, build emits for
that staple a ProposalItem with upc = null, source = "search", notes set to
the error message, empty alternatives, records pinned[name] = false, and
continues with the remaining staples: build always yields exactly one
ProposalItem per input staple — the item list is the per-staple step in
input order, so it has one entry per staple carrying that staple's name. -/
theorem resolver_failure_isolated
    (stubs : ResolverStubs) (staples : List Staple) (locId : String)
    (listName : Option String) (autoPin : Bool)
    (confirmPin : Option (Staple → String → Bool)) (now : String)
    (i : Nat) (s : Staple) (e : String)
    (hs : staples[i]? = some s)
    (hpref : strTruthy s.preferred_upc = false)
    (hsearch : stubs.search s.term locId 5 = Except.error e)
    (hnd : (staples.map (fun t => t.name)).Nodup) :
    (generate_proposal stubs staples locId listName autoPin confirmPin
        now).1.items[i]? =
      some ⟨s.name, s.quantity, s.modality, none, some "search", [], some e, []⟩ ∧
    dictGet
        (generate_proposal stubs staples locId listName autoPin confirmPin now).2.1
        s.name = some false ∧
    (generate_proposal stubs staples locId listName autoPin confirmPin
        now).1.items =
      staples.map (fun t => (proposeStep stubs locId listName autoPin confirmPin t).1) ∧
    (generate_proposal stubs staples locId listName autoPin confirmPin
        now).1.items.length = staples.length ∧
    (∀ j : Nat,
      ((generate_proposal stubs staples locId listName autoPin confirmPin
          now).1.items[j]?).map (fun it => it.name) =
        (staples[j]?).map (fun t => t.name)) := by
  have hstep := proposeStep_search_error stubs locId listName autoPin confirmPin
    s e hpref hsearch
  refine ⟨?_, ?_,
    generate_items stubs staples locId listName autoPin confirmPin now, ?_, ?_⟩
  · rw [generate_items, List.getElem?_map, hs, Option.map_some', hstep]
  · rw [generate_pinned_lookup stubs staples locId listName autoPin confirmPin now
      i s hs hnd, hstep]
  · rw [generate_items, List.length_map]
  · intro j
    rw [generate_items, List.getElem?_map]
    cases staples[j]? with
    | none => rfl
    | some t => simp [proposeStep_name]

/-- A candidate product whose embedded item payload carries a upc. -/
def milkProduct : Product := ⟨"123", some "Milk Gallon", some [some "000222"]⟩

/-- Collaborators for the A/B/C scenario: search raises for the term "bad"
and otherwise returns the milk candidate. -/
def abcStubs : ResolverStubs :=
  ⟨fun term _ _ =>
      if term = "bad" then Except.error "KrogerAPIError: 500" else Except.ok ⟨[milkProduct]⟩,
    fun _ _ => Except.error "KrogerAPIError: 500",
    fun _ _ _ => true⟩

/-- Staple A, resolving normally. -/
def stapleA : Staple := ⟨"A", "milk", 1, none, "PICKUP"⟩

/-- Staple B, whose search raises. -/
def stapleB : Staple := ⟨"B", "bad", 1, none, "PICKUP"⟩

/-- Staple C, resolving normally. -/
def stapleC : Staple := ⟨"C", "milk", 1, none, "PICKUP"⟩

/-- Witness for C6: with staples [A (resolves), B (search raises),
C (resolves)], build yields three items, B's carrying the error in notes and
no upc, while A and C resolve normally around it. -/
theorem resolver_failure_isolated_witness :
    (generate_proposal abcStubs [stapleA, stapleB, stapleC] "01400441" none false
        none "2024-01-01T00:00:00Z").1.items[1]? =
      some ⟨"B", 1, "PICKUP", none, some "search", [],
        some "KrogerAPIError: 500", []⟩ ∧
    (generate_proposal abcStubs [stapleA, stapleB, stapleC] "01400441" none false
        none "2024-01-01T00:00:00Z").1.items.length = 3 ∧
    ((generate_proposal abcStubs [stapleA, stapleB, stapleC] "01400441" none false
        none "2024-01-01T00:00:00Z").1.items.map (fun it => it.upc)) =
      [some "000222", none, some "000222"] := by
  have h := resolver_failure_isolated abcStubs [stapleA, stapleB, stapleC]
    "01400441" none false none "2024-01-01T00:00:00Z" 1 stapleB
    "KrogerAPIError: 500" rfl rfl rfl (by decide)
  exact ⟨h.1, h.2.2.2.1, by decide⟩

theorem proposeStep_search_ok_upc (stubs : ResolverStubs) (locId : String)
    (listName : Option String) (autoPin : Bool)
    (confirmPin : Option (Staple → String → Bool)) (s : Staple)
    (res : SearchResults)
    (hpref : strTruthy s.preferred_upc = false)
    (hsearch : stubs.search s.term locId 5 = Except.ok res) :
    (proposeStep stubs locId listName autoPin confirmPin s).1.upc =
      res.data.head?.bind (fun first => (candidateUpcs stubs locId first).head?) ∧
    (proposeStep stubs locId listName autoPin confirmPin s).1.notes = none ∧
    (proposeStep stubs locId listName autoPin confirmPin s).1.alternatives =
      (res.data.take 3).filterMap (fun p =>
        (candidateUpcs stubs locId p).head?.map (fun u =>
          (⟨u, p.description⟩ : ProposalAlternative))) := by
  unfold proposeStep
  rw [hpref]
  simp only [Bool.false_eq_true, if_false, hsearch]
  exact ⟨rfl, rfl, rfl⟩

/-- C4: for a staple resolved by search, the chosen UPC is determined from
the top search result only — it is the head of the direct-then-fallback upc
list of `res.data.head?` — so when the top result yields no UPC the item has
upc = null even when a later candidate (present, capped at 3, in
alternatives) yielded one, and this unresolved outcome carries no error:
notes stays null. -/
theorem chosen_upc_from_top_result
    (stubs : ResolverStubs) (staples : List Staple) (locId : String)
    (listName : Option String) (autoPin : Bool)
    (confirmPin : Option (Staple → String → Bool)) (now : String)
    (i : Nat) (s : Staple) (res : SearchResults)
    (hs : staples[i]? = some s)
    (hpref : strTruthy s.preferred_upc = false)
    (hsearch : stubs.search s.term locId 5 = Except.ok res) :
    ((generate_proposal stubs staples locId listName autoPin confirmPin
        now).1.items[i]?).map (fun it => (it.upc, it.notes, it.alternatives)) =
      some
        (res.data.head?.bind (fun first => (candidateUpcs stubs locId first).head?),
          none,
          (res.data.take 3).filterMap (fun p =>
            (candidateUpcs stubs locId p).head?.map (fun u =>
              (⟨u, p.description⟩ : ProposalAlternative)))) := by
  obtain ⟨h1, h2, h3⟩ := proposeStep_search_ok_upc stubs locId listName autoPin
    confirmPin s res hpref hsearch
  rw [generate_items, List.getElem?_map, hs]
  simp only [Option.map_some', h1, h2, h3]

/-- A top candidate with no embedded upcs (its detail fetch will fail too). -/
def gapTop : Product := ⟨"p1", some "Top Hit", none⟩

/-- A second candidate whose embedded payload carries a upc. -/
def secondProd : Product := ⟨"p2", some "Second Hit", some [some "000333"]⟩

/-- Collaborators where the top result resolves to no upc while the second
candidate resolves, and every detail fetch raises. -/
def gapStubs : ResolverStubs :=
  ⟨fun _ _ _ => Except.ok ⟨[gapTop, secondProd]⟩,
    fun _ _ => Except.error "KrogerAPIError: 500",
    fun _ _ _ => true⟩

/-- A staple that searches with no pinned upc. -/
def cerealStaple : Staple := ⟨"cereal", "cereal", 1, none, "PICKUP"⟩

/-- Witness for C4: the top result yields no UPC, so the item has upc = null
and notes = null even though the second candidate yielded "000333" and sits
in alternatives. -/
theorem chosen_upc_from_top_result_witness :
    ((generate_proposal gapStubs [cerealStaple] "01400441" none false none
        "2024-01-01T00:00:00Z").1.items[0]?).map
        (fun it => (it.upc, it.notes, it.alternatives)) =
      some (none, none, [⟨"000333", some "Second Hit"⟩]) ∧
    ((generate_proposal gapStubs [cerealStaple] "01400441" none false none
        "2024-01-01T00:00:00Z").1.items[0]?).map (fun it => it.alternatives) ≠
      some [] := by
  have h := chosen_upc_from_top_result gapStubs [cerealStaple] "01400441" none
    false none "2024-01-01T00:00:00Z" 0 cerealStaple ⟨[gapTop, secondProd]⟩
    rfl rfl rfl
  exact ⟨h, by decide⟩

/-- Whether a search-resolved upc gets pinned: the policy accepts (auto-pin,
or the injected confirmation callback says yes) and the store update does not
raise. -/
def pinDecision (stubs : ResolverStubs) (listName : Option String) (autoPin : Bool)
    (confirmPin : Option (Staple → String → Bool)) (s : Staple) (u : String) : Bool :=
  (autoPin ||
    (match confirmPin with
     | some f => f s u
     | none => false)) &&
    stubs.updateOk s.name u listName

theorem proposeStep_search_ok_chosen (stubs : ResolverStubs) (locId : String)
    (listName : Option String) (autoPin : Bool)
    (confirmPin : Option (Staple → String → Bool)) (s : Staple)
    (res : SearchResults) (u : String)
    (hpref : strTruthy s.preferred_upc = false)
    (hsearch : stubs.search s.term locId 5 = Except.ok res)
    (hchosen : res.data.head?.bind
      (fun first => (candidateUpcs stubs locId first).head?) = some u)
    (hu : u ≠ "") :
    (proposeStep stubs locId listName autoPin confirmPin s).1.upc = some u ∧
    (proposeStep stubs locId listName autoPin confirmPin s).1.source =
      some (if pinDecision stubs listName autoPin confirmPin s u then "preferred"
        else "search") ∧
    (proposeStep stubs locId listName autoPin confirmPin s).2.1 =
      pinDecision stubs listName autoPin confirmPin s u := by
  unfold proposeStep
  rw [hpref]
  simp only [Bool.false_eq_true, if_false, hsearch]
  rw [hchosen]
  unfold finishStep
  rw [hpref]
  simp only [strTruthy_some hu, Bool.false_eq_true, if_false, Bool.not_false,
    Bool.and_true, if_true]
  cases hsp : (autoPin ||
      (match confirmPin with
       | some f => f s u
       | none => false))
  · simp [pinDecision, hsp]
  · cases hup : stubs.updateOk s.name u listName
    · simp [pinDecision, hsp, hup]
    · simp [pinDecision, hsp, hup]

theorem proposeStep_preferred_source_inv (stubs : ResolverStubs) (locId : String)
    (listName : Option String) (autoPin : Bool)
    (confirmPin : Option (Staple → String → Bool)) (s : Staple)
    (hsrc : (proposeStep stubs locId listName autoPin confirmPin s).1.source =
      some "preferred") :
    (proposeStep stubs locId listName autoPin confirmPin s).1.upc ≠ none ∧
    (strTruthy s.preferred_upc = true →
      (proposeStep stubs locId listName autoPin confirmPin s).1.upc =
        s.preferred_upc) := by
  cases hp : strTruthy s.preferred_upc
  · refine ⟨?_, fun hcontra => absurd hcontra (by simp [hp])⟩
    revert hsrc
    unfold proposeStep
    rw [hp]
    simp only [Bool.false_eq_true, if_false]
    cases hsearch : stubs.search s.term locId 5 with
    | error e =>
      intro hsrc
      simp at hsrc
    | ok res =>
      unfold finishStep
      rw [hp]
      simp only [Bool.false_eq_true, if_false, Bool.not_false, Bool.and_true]
      cases hc : strTruthy (res.data.head?.bind
          (fun first => (candidateUpcs stubs locId first).head?))
      · simp [hc]
      · intro _
        cases hcc : res.data.head?.bind
            (fun first => (candidateUpcs stubs locId first).head?) with
        | none => rw [hcc] at hc; simp [strTruthy] at hc
        | some w => simp [hcc]
  · cases hpref : s.preferred_upc with
    | none => rw [hpref] at hp; simp [strTruthy] at hp
    | some u =>
      have hu : u ≠ "" := by
        rw [hpref] at hp
        simpa [strTruthy] using hp
      rw [proposeStep_preferred stubs locId listName autoPin confirmPin s u hpref hu]
      exact ⟨by simp, fun _ => rfl⟩

/-- The milk staple of the concrete scenario: no pinned upc yet. -/
def milkStaple : Staple := ⟨"milk", "milk", 2, none, "PICKUP"⟩

/-- Collaborators whose search always returns the milk candidate as top hit
and whose staple-store update succeeds. -/
def milkStubs : ResolverStubs :=
  ⟨fun _ _ _ => Except.ok ⟨[milkProduct]⟩,
    fun _ _ => Except.error "KrogerAPIError: 500",
    fun _ _ _ => true⟩

/-- C5 counterexample: with auto_pin = true and a succeeding store update,
the staple without a preferredUpc whose search chose "000222" is emitted
with source = "preferred" — not "search" — and its upc does not equal the
originating staple's (absent) preferredUpc, refuting the claim as stated. -/
theorem search_source_counterexample :
    ((generate_proposal milkStubs [milkStaple] "01400441" none true none
        "2024-01-01T00:00:00Z").1.items.map (fun it => it.source)) =
      [some "preferred"] ∧
    ((generate_proposal milkStubs [milkStaple] "01400441" none true none
        "2024-01-01T00:00:00Z").1.items.map (fun it => it.source)) ≠
      [some "search"] ∧
    milkStaple.preferred_upc = none ∧
    ((generate_proposal milkStubs [milkStaple] "01400441" none true none
        "2024-01-01T00:00:00Z").1.items.map (fun it => it.upc)) =
      [some "000222"] := by
  decide

/-- C5 (amended): for a staple with no preferredUpc whose search yields a
chosen UPC, the emitted item has upc equal to that UPC and source "search"
unless the UPC was pinned onto the staple (policy accepted and store update
succeeded), in which case source is "preferred"; whenever an emitted item
has source "preferred" its upc is non-null, and equals the staple's
preferredUpc when that was set (otherwise it is the freshly pinned chosen
UPC); in the concrete milk scenario without pinning the item is milk/2 with
upc "000222", source "search", and exactly one alternative with upc
"000222". -/
theorem search_source_provenance :
    (∀ (stubs : ResolverStubs) (staples : List Staple) (locId : String)
      (listName : Option String) (autoPin : Bool)
      (confirmPin : Option (Staple → String → Bool)) (now : String)
      (i : Nat) (s : Staple) (res : SearchResults) (u : String),
      staples[i]? = some s → strTruthy s.preferred_upc = false →
      stubs.search s.term locId 5 = Except.ok res →
      res.data.head?.bind (fun first => (candidateUpcs stubs locId first).head?) =
        some u →
      u ≠ "" →
      ((generate_proposal stubs staples locId listName autoPin confirmPin
          now).1.items[i]?).map (fun it => (it.source, it.upc)) =
        some
          (some (if pinDecision stubs listName autoPin confirmPin s u then
            "preferred" else "search"), some u)) ∧
    (∀ (stubs : ResolverStubs) (locId : String) (listName : Option String)
      (autoPin : Bool) (confirmPin : Option (Staple → String → Bool)) (s : Staple),
      (proposeStep stubs locId listName autoPin confirmPin s).1.source =
        some "preferred" →
      (proposeStep stubs locId listName autoPin confirmPin s).1.upc ≠ none ∧
      (strTruthy s.preferred_upc = true →
        (proposeStep stubs locId listName autoPin confirmPin s).1.upc =
          s.preferred_upc)) ∧
    (generate_proposal milkStubs [milkStaple] "01400441" none false none
        "2024-01-01T00:00:00Z").1.items =
      [⟨"milk", 2, "PICKUP", some "000222", some "search", [],
        none, [⟨"000222", some "Milk Gallon"⟩]⟩] := by
  refine ⟨?_, proposeStep_preferred_source_inv, by decide⟩
  intro stubs staples locId listName autoPin confirmPin now i s res u hs hpref
    hsearch hchosen hu
  obtain ⟨h1, h2, _⟩ := proposeStep_search_ok_chosen stubs locId listName autoPin
    confirmPin s res u hpref hsearch hchosen hu
  rw [generate_items, List.getElem?_map, hs]
  simp only [Option.map_some', h1, h2]

/-- Witness for C5 (amended): the milk staple with no pin policy resolves to
source "search" and upc "000222"; and the pinned-staple item, whose source is
"preferred", has a non-null upc equal to its staple's preferredUpc. -/
theorem search_source_provenance_witness :
    ((generate_proposal milkStubs [milkStaple] "01400441" none false none
        "2024-01-01T00:00:00Z").1.items[0]?).map (fun it => (it.source, it.upc)) =
      some (some "search", some "000222") ∧
    ((proposeStep prefStubs "01400441" none false none pinnedStaple).1.upc ≠ none ∧
      (strTruthy pinnedStaple.preferred_upc = true →
        (proposeStep prefStubs "01400441" none false none pinnedStaple).1.upc =
          pinnedStaple.preferred_upc)) :=
  ⟨search_source_provenance.1 milkStubs [milkStaple] "01400441" none false none
      "2024-01-01T00:00:00Z" 0 milkStaple ⟨[milkProduct]⟩ "000222" rfl rfl rfl rfl
      (by decide),
    search_source_provenance.2.1 prefStubs "01400441" none false none pinnedStaple
      (by decide)⟩

/-- C10: every Proposal returned by generate_proposal has sources equal to
the empty list and every emitted ProposalItem has an empty sources list, for
every input including any supplied list_name; consequently a SentSession
built from such a proposal's sources by `session_from_apply_results` always
records sources = []. -/
theorem proposal_sources_empty
    (stubs : ResolverStubs) (staples : List Staple) (locId : String)
    (listName : Option String) (autoPin : Bool)
    (confirmPin : Option (Staple → String → Bool)) (now : String) :
    (generate_proposal stubs staples locId listName autoPin confirmPin
        now).1.sources = [] ∧
    ((generate_proposal stubs staples locId listName autoPin confirmPin
        now).1.items.all (fun it => it.sources.isEmpty)) = true ∧
    (∀ (results : List ApplyItemResult) (loc2 started finished sid : Option String)
      (ns nf fid : String),
      (session_from_apply_results results loc2
        (generate_proposal stubs staples locId listName autoPin confirmPin
          now).1.sources started finished sid ns nf fid).sources = []) := by
  have h1 : (generate_proposal stubs staples locId listName autoPin confirmPin
      now).1.sources = [] := rfl
  refine ⟨h1, ?_, fun results loc2 started finished sid ns nf fid => by
    rw [session_from_apply_results, h1]⟩
  rw [generate_items, List.all_eq_true]
  intro it hit
  obtain ⟨s, _, hform⟩ := List.mem_map.mp hit
  rw [← hform, proposeStep_sources]
  rfl

end Kroget
